import Mathlib

/-!
Verification of the sarkit SICD projection error-propagation core.

The development shallowly embeds the relevant parts of
`sarkit/sicd/projection/_errorprop.py`, `sarkit/sicd/projection/_sensitivity.py`
and `sarkit/crsd/_computations.py` in Lean.  Floating-point arrays are modelled
as exact matrices over the reals (for code involving square roots) or the
rationals (for purely arithmetic code), with numpy `None` values modelled as
`Option`.
-/

set_option maxHeartbeats 1000000

noncomputable section

open Matrix

/-! ### Three-component vectors

The source operates on numpy arrays of shape `(3,)`.  We model them as
functions `Fin 3 → ℝ` with explicit dot product, cross product and norm.
-/

/-- Dot product of two 3-vectors (numpy `np.dot` on shape-(3,) arrays). -/
def dot3 (u v : Fin 3 → ℝ) : ℝ :=
  u 0 * v 0 + u 1 * v 1 + u 2 * v 2

/-- Cross product of two 3-vectors (numpy `np.cross`). -/
def cross3 (u v : Fin 3 → ℝ) : Fin 3 → ℝ :=
  ![u 1 * v 2 - u 2 * v 1, u 2 * v 0 - u 0 * v 2, u 0 * v 1 - u 1 * v 0]

/-- Euclidean norm of a 3-vector (numpy `np.linalg.norm`). -/
def norm3 (v : Fin 3 → ℝ) : ℝ :=
  Real.sqrt (dot3 v v)

lemma dot3_comm (u v : Fin 3 → ℝ) : dot3 u v = dot3 v u := by
  simp only [dot3]; ring

lemma dot3_self_nonneg (v : Fin 3 → ℝ) : 0 ≤ dot3 v v := by
  simp only [dot3]
  nlinarith [sq_nonneg (v 0), sq_nonneg (v 1), sq_nonneg (v 2)]

lemma exists_ne_zero_of_ne_zero {v : Fin 3 → ℝ} (h : v ≠ 0) : ∃ i, v i ≠ 0 := by
  by_contra hc
  push_neg at hc
  exact h (funext fun i => hc i)

lemma dot3_self_pos {v : Fin 3 → ℝ} (h : v ≠ 0) : 0 < dot3 v v := by
  obtain ⟨i, hi⟩ := exists_ne_zero_of_ne_zero h
  have h0 := mul_self_nonneg (v 0)
  have h1 := mul_self_nonneg (v 1)
  have h2 := mul_self_nonneg (v 2)
  fin_cases i
  · have := mul_self_pos.mpr (show v 0 ≠ 0 from hi)
    simp only [dot3]; nlinarith
  · have := mul_self_pos.mpr (show v 1 ≠ 0 from hi)
    simp only [dot3]; nlinarith
  · have := mul_self_pos.mpr (show v 2 ≠ 0 from hi)
    simp only [dot3]; nlinarith

lemma norm3_pos {v : Fin 3 → ℝ} (h : v ≠ 0) : 0 < norm3 v :=
  Real.sqrt_pos.mpr (dot3_self_pos h)

lemma dot3_smul_left (c : ℝ) (u v : Fin 3 → ℝ) :
    dot3 (c • u) v = c * dot3 u v := by
  simp only [dot3, Pi.smul_apply, smul_eq_mul]; ring

lemma dot3_smul_right (c : ℝ) (u v : Fin 3 → ℝ) :
    dot3 u (c • v) = c * dot3 u v := by
  simp only [dot3, Pi.smul_apply, smul_eq_mul]; ring

lemma cross3_smul_left (c : ℝ) (u v : Fin 3 → ℝ) :
    cross3 (c • u) v = c • cross3 u v := by
  funext i
  fin_cases i <;> simp [cross3] <;> ring

lemma dot3_cross3_left (u v : Fin 3 → ℝ) : dot3 (cross3 u v) u = 0 := by
  simp only [dot3, cross3, Matrix.cons_val_zero, Matrix.cons_val_one, Matrix.head_cons,
    Matrix.cons_val_two, Matrix.tail_cons]
  ring

lemma dot3_cross3_right (u v : Fin 3 → ℝ) : dot3 (cross3 u v) v = 0 := by
  simp only [dot3, cross3, Matrix.cons_val_zero, Matrix.cons_val_one, Matrix.head_cons,
    Matrix.cons_val_two, Matrix.tail_cons]
  ring

lemma dot3_cross3_lagrange (u v : Fin 3 → ℝ) :
    dot3 (cross3 u v) (cross3 u v) = dot3 u u * dot3 v v - dot3 u v ^ 2 := by
  simp only [dot3, cross3, Matrix.cons_val_zero, Matrix.cons_val_one, Matrix.head_cons,
    Matrix.cons_val_two, Matrix.tail_cons]
  ring

/-! ### RIC basis vectors (`compute_ric_basis_vectors`) -/

/-- Embedding of `compute_ric_basis_vectors` from `_errorprop.py`:
radial, in-track and cross-track unit vectors of the RIC frame. -/
def compute_ric_basis_vectors (p_ric v_ric : Fin 3 → ℝ) :
    (Fin 3 → ℝ) × (Fin 3 → ℝ) × (Fin 3 → ℝ) :=
  let u_r := (norm3 p_ric)⁻¹ • p_ric
  let c := cross3 u_r v_ric
  let u_c := (norm3 c)⁻¹ • c
  let u_i := cross3 u_c u_r
  (u_r, u_i, u_c)

lemma dot3_self_normalized {v : Fin 3 → ℝ} (h : v ≠ 0) :
    dot3 ((norm3 v)⁻¹ • v) ((norm3 v)⁻¹ • v) = 1 := by
  rw [dot3_smul_left, dot3_smul_right]
  have hpos := dot3_self_pos h
  rw [norm3, ← Real.sqrt_inv, ← Real.sqrt_mul_self (by positivity : (0:ℝ) ≤ (dot3 v v)⁻¹)]
  field_simp

lemma norm3_of_dot3_self_one {v : Fin 3 → ℝ} (h : dot3 v v = 1) : norm3 v = 1 := by
  rw [norm3, h, Real.sqrt_one]

/-- The normalized radial vector. -/
lemma ric_u_r_def (p v : Fin 3 → ℝ) :
    (compute_ric_basis_vectors p v).1 = (norm3 p)⁻¹ • p := rfl

lemma ric_u_c_def (p v : Fin 3 → ℝ) :
    (compute_ric_basis_vectors p v).2.2 =
      (norm3 (cross3 ((norm3 p)⁻¹ • p) v))⁻¹ • cross3 ((norm3 p)⁻¹ • p) v := rfl

lemma ric_u_i_def (p v : Fin 3 → ℝ) :
    (compute_ric_basis_vectors p v).2.1 =
      cross3 (compute_ric_basis_vectors p v).2.2 (compute_ric_basis_vectors p v).1 := rfl

lemma ric_cross_ne_zero {p v : Fin 3 → ℝ} (hp : p ≠ 0) (hpv : cross3 p v ≠ 0) :
    cross3 ((norm3 p)⁻¹ • p) v ≠ 0 := by
  rw [cross3_smul_left]
  exact smul_ne_zero (inv_ne_zero (ne_of_gt (norm3_pos hp))) hpv

lemma ric_dot_u_r_u_r {p v : Fin 3 → ℝ} (hp : p ≠ 0) :
    dot3 (compute_ric_basis_vectors p v).1 (compute_ric_basis_vectors p v).1 = 1 := by
  rw [ric_u_r_def]
  exact dot3_self_normalized hp

lemma ric_dot_u_c_u_c {p v : Fin 3 → ℝ} (hp : p ≠ 0) (hpv : cross3 p v ≠ 0) :
    dot3 (compute_ric_basis_vectors p v).2.2 (compute_ric_basis_vectors p v).2.2 = 1 := by
  rw [ric_u_c_def]
  exact dot3_self_normalized (ric_cross_ne_zero hp hpv)

lemma ric_dot_u_r_u_c (p v : Fin 3 → ℝ) :
    dot3 (compute_ric_basis_vectors p v).1 (compute_ric_basis_vectors p v).2.2 = 0 := by
  rw [ric_u_r_def, ric_u_c_def, dot3_smul_right, dot3_comm, dot3_cross3_left, mul_zero]

lemma ric_dot_u_r_u_i (p v : Fin 3 → ℝ) :
    dot3 (compute_ric_basis_vectors p v).1 (compute_ric_basis_vectors p v).2.1 = 0 := by
  rw [ric_u_i_def, dot3_comm, dot3_cross3_right]

lemma ric_dot_u_i_u_c (p v : Fin 3 → ℝ) :
    dot3 (compute_ric_basis_vectors p v).2.1 (compute_ric_basis_vectors p v).2.2 = 0 := by
  rw [ric_u_i_def, dot3_cross3_left]

lemma ric_dot_u_i_u_i {p v : Fin 3 → ℝ} (hp : p ≠ 0) (hpv : cross3 p v ≠ 0) :
    dot3 (compute_ric_basis_vectors p v).2.1 (compute_ric_basis_vectors p v).2.1 = 1 := by
  rw [ric_u_i_def, dot3_cross3_lagrange, ric_dot_u_c_u_c hp hpv, ric_dot_u_r_u_r hp]
  have h := ric_dot_u_r_u_c p v
  rw [dot3_comm] at h
  rw [h]
  norm_num

/-- C3: for p nonzero and v not parallel to p, the RIC basis vectors are
unit-norm, pairwise orthogonal, and the radial one is a positive multiple
of p. -/
theorem ric_basis_vectors_orthonormal (p v : Fin 3 → ℝ)
    (hp : p ≠ 0) (hpv : cross3 p v ≠ 0) :
    norm3 (compute_ric_basis_vectors p v).1 = 1 ∧
    norm3 (compute_ric_basis_vectors p v).2.1 = 1 ∧
    norm3 (compute_ric_basis_vectors p v).2.2 = 1 ∧
    dot3 (compute_ric_basis_vectors p v).1 (compute_ric_basis_vectors p v).2.1 = 0 ∧
    dot3 (compute_ric_basis_vectors p v).1 (compute_ric_basis_vectors p v).2.2 = 0 ∧
    dot3 (compute_ric_basis_vectors p v).2.1 (compute_ric_basis_vectors p v).2.2 = 0 ∧
    ∃ c : ℝ, 0 < c ∧ (compute_ric_basis_vectors p v).1 = c • p := by
  refine ⟨norm3_of_dot3_self_one (ric_dot_u_r_u_r hp),
    norm3_of_dot3_self_one (ric_dot_u_i_u_i hp hpv),
    norm3_of_dot3_self_one (ric_dot_u_c_u_c hp hpv),
    ric_dot_u_r_u_i p v, ric_dot_u_r_u_c p v, ric_dot_u_i_u_c p v,
    (norm3 p)⁻¹, inv_pos.mpr (norm3_pos hp), ric_u_r_def p v⟩

/-- C3 witness: the theorem instantiated at p = (1,0,0), v = (0,1,0). -/
theorem ric_basis_vectors_orthonormal_witness :
    (![1, 0, 0] : Fin 3 → ℝ) ≠ 0 ∧ cross3 ![1, 0, 0] ![0, 1, 0] ≠ 0 ∧
    norm3 (compute_ric_basis_vectors ![1, 0, 0] ![0, 1, 0]).1 = 1 := by
  have hp : (![1, 0, 0] : Fin 3 → ℝ) ≠ 0 := by
    intro h
    have h0 := congrFun h 0
    norm_num at h0
  have hpv : cross3 ![1, 0, 0] ![0, 1, 0] ≠ (0 : Fin 3 → ℝ) := by
    intro h
    have h2 := congrFun h 2
    simp only [cross3, Matrix.cons_val_zero, Matrix.cons_val_one, Matrix.head_cons,
      Matrix.cons_val_two, Matrix.tail_cons, Pi.zero_apply] at h2
    norm_num at h2
  exact ⟨hp, hpv, (ric_basis_vectors_orthonormal ![1, 0, 0] ![0, 1, 0] hp hpv).1⟩

/-! ### ECEF position/velocity frame transformations

Modelled from the spec: the module `sarkit.wgs84` is not under `src/`; the
spec names the WGS-84 ellipsoid, whose nominal mean angular velocity is the
standardized constant below (rad/s).  Only its nonzeroness matters here.
-/

def NOMINAL_MEAN_ANGULAR_VELOCITY : ℝ := 7.292115e-5

/-- Index type for 6-element position/velocity stacks (3 position rows
followed by 3 velocity rows). -/
abbrev PVIdx := Fin 3 ⊕ Fin 3

/-- Columns of the stacked RIC basis (numpy `np.stack(..., axis=1)`). -/
def ric_column (p v : Fin 3 → ℝ) : Fin 3 → (Fin 3 → ℝ) :=
  ![(compute_ric_basis_vectors p v).1,
    (compute_ric_basis_vectors p v).2.1,
    (compute_ric_basis_vectors p v).2.2]

/-- Embedding of `_compute_t_ecef_ricf`: the 3x3 matrix whose columns are the
RIC basis vectors. -/
def t_ecef_ricf (p v : Fin 3 → ℝ) : Matrix (Fin 3) (Fin 3) ℝ :=
  Matrix.of fun i j => ric_column p v j i

/-- The inertial velocity used by `_compute_t_ecef_rici`:
`v_ecef + np.cross([0, 0, NOMINAL_MEAN_ANGULAR_VELOCITY], p_ecef)`. -/
def v_eci (p v : Fin 3 → ℝ) : Fin 3 → ℝ :=
  v + cross3 ![0, 0, NOMINAL_MEAN_ANGULAR_VELOCITY] p

/-- Embedding of `_compute_t_ecef_rici`. -/
def t_ecef_rici (p v : Fin 3 → ℝ) : Matrix (Fin 3) (Fin 3) ℝ :=
  t_ecef_ricf p (v_eci p v)

/-- The `omega_3` matrix of `_compute_rici_rotation_matrix`. -/
def omega_3 : Matrix (Fin 3) (Fin 3) ℝ :=
  !![0, NOMINAL_MEAN_ANGULAR_VELOCITY, 0;
     -NOMINAL_MEAN_ANGULAR_VELOCITY, 0, 0;
     0, 0, 0]

/-- Embedding of `_compute_ricf_rotation_matrix` (block diagonal 6x6). -/
def ricf_rotation_matrix (p v : Fin 3 → ℝ) : Matrix PVIdx PVIdx ℝ :=
  Matrix.fromBlocks (t_ecef_ricf p v) 0 0 (t_ecef_ricf p v)

/-- Embedding of `_compute_rici_rotation_matrix` (block lower-triangular 6x6). -/
def rici_rotation_matrix (p v : Fin 3 → ℝ) : Matrix PVIdx PVIdx ℝ :=
  Matrix.fromBlocks (t_ecef_rici p v) 0
    (omega_3 * t_ecef_rici p v) (t_ecef_rici p v)

/-- The three coordinate-frame names accepted by
`compute_ecef_pv_transformation`.  The source dispatches on the strings
"ECF", "RICF", "RICI" and raises `ValueError` on any other string; the
claims only concern the three accepted names, modelled as an enumeration. -/
inductive Frame
  | ECF
  | RICF
  | RICI

/-- Embedding of `compute_ecef_pv_transformation` from `_errorprop.py`. -/
def compute_ecef_pv_transformation (p_ecef v_ecef : Fin 3 → ℝ) :
    Frame → Matrix PVIdx PVIdx ℝ
  | Frame.ECF => 1
  | Frame.RICF => ricf_rotation_matrix p_ecef v_ecef
  | Frame.RICI => rici_rotation_matrix p_ecef v_ecef

lemma t_ecef_ricf_gram (p v : Fin 3 → ℝ) (i j : Fin 3) :
    ((t_ecef_ricf p v)ᵀ * t_ecef_ricf p v) i j =
      dot3 (ric_column p v i) (ric_column p v j) := by
  simp [Matrix.mul_apply, Fin.sum_univ_three, t_ecef_ricf, dot3]

lemma t_ecef_ricf_mul_transpose {p v : Fin 3 → ℝ}
    (hp : p ≠ 0) (hpv : cross3 p v ≠ 0) :
    t_ecef_ricf p v * (t_ecef_ricf p v)ᵀ = 1 := by
  rw [Matrix.mul_eq_one_comm]
  ext i j
  rw [t_ecef_ricf_gram]
  fin_cases i <;> fin_cases j
  · exact (ric_dot_u_r_u_r hp).trans (Matrix.one_apply_eq _).symm
  · exact (ric_dot_u_r_u_i p v).trans (Matrix.one_apply_ne (by decide)).symm
  · exact (ric_dot_u_r_u_c p v).trans (Matrix.one_apply_ne (by decide)).symm
  · exact ((dot3_comm _ _).trans (ric_dot_u_r_u_i p v)).trans
      (Matrix.one_apply_ne (by decide)).symm
  · exact (ric_dot_u_i_u_i hp hpv).trans (Matrix.one_apply_eq _).symm
  · exact (ric_dot_u_i_u_c p v).trans (Matrix.one_apply_ne (by decide)).symm
  · exact ((dot3_comm _ _).trans (ric_dot_u_r_u_c p v)).trans
      (Matrix.one_apply_ne (by decide)).symm
  · exact ((dot3_comm _ _).trans (ric_dot_u_i_u_c p v)).trans
      (Matrix.one_apply_ne (by decide)).symm
  · exact (ric_dot_u_c_u_c hp hpv).trans (Matrix.one_apply_eq _).symm

lemma rici_rotation_matrix_mul_transpose {p v : Fin 3 → ℝ}
    (hp : p ≠ 0) (hvi : cross3 p (v_eci p v) ≠ 0) :
    rici_rotation_matrix p v * (rici_rotation_matrix p v)ᵀ =
      Matrix.fromBlocks 1 omega_3ᵀ omega_3 (omega_3 * omega_3ᵀ + 1) := by
  have hTT : t_ecef_rici p v * (t_ecef_rici p v)ᵀ = 1 :=
    t_ecef_ricf_mul_transpose hp hvi
  rw [rici_rotation_matrix, Matrix.fromBlocks_transpose, Matrix.fromBlocks_multiply]
  simp only [Matrix.transpose_zero, Matrix.mul_zero, Matrix.zero_mul, add_zero, zero_add,
    Matrix.transpose_mul]
  refine Matrix.fromBlocks_inj.mpr ⟨?_, ?_, ?_, ?_⟩
  · exact hTT
  · rw [← Matrix.mul_assoc, hTT, Matrix.one_mul]
  · rw [Matrix.mul_assoc, hTT, Matrix.mul_one]
  · rw [hTT, Matrix.mul_assoc omega_3, ← Matrix.mul_assoc (t_ecef_rici p v), hTT,
      Matrix.one_mul]

lemma omega_ne_zero : NOMINAL_MEAN_ANGULAR_VELOCITY ≠ 0 := by
  rw [NOMINAL_MEAN_ANGULAR_VELOCITY]
  norm_num

/-- C4 (amended): the ECF and RICF 6x6 transformations satisfy T * Tᵀ = 1;
for RICI the full 6x6 product is not the identity while the 3x3 position and
velocity sub-blocks are orthonormal, provided the inertial velocity used by
the RICI basis is also non-parallel to p. -/
theorem ecef_pv_transformation_orthogonality (p v : Fin 3 → ℝ)
    (hp : p ≠ 0) (hv : cross3 p v ≠ 0) (hvi : cross3 p (v_eci p v) ≠ 0) :
    compute_ecef_pv_transformation p v Frame.ECF *
      (compute_ecef_pv_transformation p v Frame.ECF)ᵀ = 1 ∧
    compute_ecef_pv_transformation p v Frame.RICF *
      (compute_ecef_pv_transformation p v Frame.RICF)ᵀ = 1 ∧
    compute_ecef_pv_transformation p v Frame.RICI *
      (compute_ecef_pv_transformation p v Frame.RICI)ᵀ ≠ 1 ∧
    (compute_ecef_pv_transformation p v Frame.RICI).toBlocks₁₁ *
      ((compute_ecef_pv_transformation p v Frame.RICI).toBlocks₁₁)ᵀ = 1 ∧
    (compute_ecef_pv_transformation p v Frame.RICI).toBlocks₂₂ *
      ((compute_ecef_pv_transformation p v Frame.RICI).toBlocks₂₂)ᵀ = 1 := by
  refine ⟨?_, ?_, ?_, ?_, ?_⟩
  · show (1 : Matrix PVIdx PVIdx ℝ) * (1 : Matrix PVIdx PVIdx ℝ)ᵀ = 1
    rw [Matrix.transpose_one, Matrix.one_mul]
  · show ricf_rotation_matrix p v * (ricf_rotation_matrix p v)ᵀ = 1
    rw [ricf_rotation_matrix, Matrix.fromBlocks_transpose, Matrix.fromBlocks_multiply]
    simp only [Matrix.transpose_zero, Matrix.mul_zero, Matrix.zero_mul, add_zero,
      zero_add, t_ecef_ricf_mul_transpose hp hv, Matrix.fromBlocks_one]
  · show rici_rotation_matrix p v * (rici_rotation_matrix p v)ᵀ ≠ 1
    intro h
    rw [rici_rotation_matrix_mul_transpose hp hvi] at h
    have h01 := congrFun (congrFun h (Sum.inl 0)) (Sum.inr 1)
    simp only [Matrix.fromBlocks_apply₁₂, Matrix.transpose_apply] at h01
    rw [Matrix.one_apply_ne (by simp)] at h01
    have : NOMINAL_MEAN_ANGULAR_VELOCITY = 0 := by
      have h2 : omega_3 1 0 = 0 := h01
      simpa [omega_3, neg_eq_zero] using h2
    exact omega_ne_zero this
  · show (rici_rotation_matrix p v).toBlocks₁₁ *
      ((rici_rotation_matrix p v).toBlocks₁₁)ᵀ = 1
    rw [rici_rotation_matrix, Matrix.toBlocks_fromBlocks₁₁]
    exact t_ecef_ricf_mul_transpose hp hvi
  · show (rici_rotation_matrix p v).toBlocks₂₂ *
      ((rici_rotation_matrix p v).toBlocks₂₂)ᵀ = 1
    rw [rici_rotation_matrix, Matrix.toBlocks_fromBlocks₂₂]
    exact t_ecef_ricf_mul_transpose hp hvi

/-- C4 witness: the amended theorem instantiated at p = (1,0,0), v = (0,1,0). -/
theorem ecef_pv_transformation_orthogonality_witness :
    (![1, 0, 0] : Fin 3 → ℝ) ≠ 0 ∧
    cross3 ![1, 0, 0] ![0, 1, 0] ≠ 0 ∧
    cross3 ![1, 0, 0] (v_eci ![1, 0, 0] ![0, 1, 0]) ≠ 0 ∧
    compute_ecef_pv_transformation ![1, 0, 0] ![0, 1, 0] Frame.ECF *
      (compute_ecef_pv_transformation ![1, 0, 0] ![0, 1, 0] Frame.ECF)ᵀ = 1 := by
  have hp : (![1, 0, 0] : Fin 3 → ℝ) ≠ 0 := by
    intro h
    have h0 := congrFun h 0
    norm_num at h0
  have hv : cross3 ![1, 0, 0] ![0, 1, 0] ≠ (0 : Fin 3 → ℝ) := by
    intro h
    have h2 := congrFun h 2
    simp only [cross3, Matrix.cons_val_zero, Matrix.cons_val_one, Matrix.head_cons,
      Matrix.cons_val_two, Matrix.tail_cons, Pi.zero_apply] at h2
    norm_num at h2
  have hvi : cross3 ![1, 0, 0] (v_eci ![1, 0, 0] ![0, 1, 0]) ≠ (0 : Fin 3 → ℝ) := by
    intro h
    have h2 := congrFun h 2
    simp only [cross3, v_eci, Pi.add_apply, Matrix.cons_val_zero, Matrix.cons_val_one,
      Matrix.head_cons, Matrix.cons_val_two, Matrix.tail_cons, Pi.zero_apply] at h2
    rw [NOMINAL_MEAN_ANGULAR_VELOCITY] at h2
    norm_num at h2
  exact ⟨hp, hv, hvi,
    (ecef_pv_transformation_orthogonality ![1, 0, 0] ![0, 1, 0] hp hv hvi).1⟩

/-- C4 counterexample: with p = (1,0,0) and v = (1, -omega, 0), p is nonzero
and v is not parallel to p, yet the RICI inertial velocity is parallel to p,
so the 3x3 position sub-block of the RICI transformation is not orthonormal:
the claim as stated fails at this input. -/
theorem ecef_pv_transformation_rici_counterexample :
    (![1, 0, 0] : Fin 3 → ℝ) ≠ 0 ∧
    cross3 ![1, 0, 0] ![1, -NOMINAL_MEAN_ANGULAR_VELOCITY, 0] ≠ 0 ∧
    ¬ ((compute_ecef_pv_transformation ![1, 0, 0]
          ![1, -NOMINAL_MEAN_ANGULAR_VELOCITY, 0] Frame.RICI).toBlocks₁₁ *
        ((compute_ecef_pv_transformation ![1, 0, 0]
          ![1, -NOMINAL_MEAN_ANGULAR_VELOCITY, 0] Frame.RICI).toBlocks₁₁)ᵀ = 1) := by
  have hp : (![1, 0, 0] : Fin 3 → ℝ) ≠ 0 := by
    intro h
    have h0 := congrFun h 0
    norm_num at h0
  have hv : cross3 ![1, 0, 0] ![1, -NOMINAL_MEAN_ANGULAR_VELOCITY, 0] ≠
      (0 : Fin 3 → ℝ) := by
    intro h
    have h2 := congrFun h 2
    simp only [cross3, Matrix.cons_val_zero, Matrix.cons_val_one, Matrix.head_cons,
      Matrix.cons_val_two, Matrix.tail_cons, Pi.zero_apply] at h2
    rw [NOMINAL_MEAN_ANGULAR_VELOCITY] at h2
    norm_num at h2
  refine ⟨hp, hv, ?_⟩
  intro h
  have hveci : v_eci ![1, 0, 0] ![1, -NOMINAL_MEAN_ANGULAR_VELOCITY, 0] =
      (![1, 0, 0] : Fin 3 → ℝ) := by
    funext i
    fin_cases i <;>
      simp [v_eci, cross3, Pi.add_apply]
  have hnorm : norm3 ![1, 0, 0] = 1 := by
    have hd : dot3 ![1, 0, 0] ![1, 0, 0] = 1 := by
      simp [dot3]
    rw [norm3, hd, Real.sqrt_one]
  have hsmul : ((norm3 ![1, 0, 0])⁻¹ • ![1, 0, 0] : Fin 3 → ℝ) = ![1, 0, 0] := by
    rw [hnorm]
    simp
  have hur : (compute_ric_basis_vectors ![1, 0, 0] ![1, 0, 0]).1 = ![1, 0, 0] :=
    (ric_u_r_def _ _).trans hsmul
  have hc : cross3 ((norm3 ![1, 0, 0])⁻¹ • ![1, 0, 0]) ![1, 0, 0] =
      (0 : Fin 3 → ℝ) := by
    rw [hsmul]
    funext i
    fin_cases i <;> simp [cross3]
  have huc : (compute_ric_basis_vectors ![1, 0, 0] ![1, 0, 0]).2.2 = 0 := by
    rw [ric_u_c_def, hc]
    simp
  have hui : (compute_ric_basis_vectors ![1, 0, 0] ![1, 0, 0]).2.1 = 0 := by
    rw [ric_u_i_def, huc]
    funext i
    fin_cases i <;> simp [cross3]
  have hB : (compute_ecef_pv_transformation ![1, 0, 0]
      ![1, -NOMINAL_MEAN_ANGULAR_VELOCITY, 0] Frame.RICI).toBlocks₁₁ =
      t_ecef_ricf ![1, 0, 0] ![1, 0, 0] := by
    show (rici_rotation_matrix _ _).toBlocks₁₁ = _
    rw [rici_rotation_matrix, Matrix.toBlocks_fromBlocks₁₁, t_ecef_rici, hveci]
  rw [hB] at h
  have h11 := congrFun (congrFun h 1) 1
  simp only [Matrix.mul_apply, Fin.sum_univ_three, t_ecef_ricf, Matrix.transpose_apply,
    Matrix.of_apply, ric_column, Matrix.cons_val_zero, Matrix.cons_val_one,
    Matrix.head_cons, Matrix.cons_val_two, Matrix.tail_cons] at h11
  rw [hur, hui, huc] at h11
  rw [Matrix.one_apply_eq] at h11
  simp only [Pi.zero_apply, Matrix.cons_val_one, Matrix.head_cons] at h11
  norm_num at h11

/-! ### Data classes for error propagation

The dataclasses live in `_params.py` and `_sensitivity.py`.  The sensitivity
matrix bundles mirror `_sensitivity.py` (their runtime shape assertions become
types here).  Modelled from the spec: `_params.py` is not under `src/`; its
error-statistics bundles are modelled from the spec's data model (optional
component / pre-composited covariance fields) with exactly the fields and
shapes the error-propagation code and its tests use.  Stacked
position/velocity objects use the block index `PVIdx`.
-/

/-- Speed of light in m/s (`sarkit._constants`, not under `src/`; physical
constant, only used as the fixed factor C/2). -/
def speed_of_light : ℝ := 299792458

/-- 2x2 real matrix, the slant-plane / range-azimuth covariance shape. -/
abbrev Mat2 := Matrix (Fin 2) (Fin 2) ℝ

/-- Column index of the 8-column monostatic APO stack (ARP, VARP, XRT). -/
abbrev ApoMIdx := (Fin 3 ⊕ Fin 3) ⊕ Fin 2

/-- Column index of the 16-column bistatic APO stack (XPV, XTF, RPV, RTF). -/
abbrev ApoXRIdx := PVIdx ⊕ (Fin 2 ⊕ (PVIdx ⊕ Fin 2))

/-- Slant plane sensitivity matrices (Table 11-2 of the IPDD). -/
structure SlantPlaneSensitivityMatrices where
  M_SPXY_PT : Matrix (Fin 2) (Fin 3) ℝ
  M_SPXY_GPXY : Mat2
  M_GPXY_SPXY : Mat2
  M_PT_GPXY : Matrix (Fin 3) (Fin 2) ℝ
  MIL_PT_HAE : Matrix (Fin 3) (Fin 1) ℝ
  M_RRdot_SPXY : Mat2
  M_SPXY_RRdot : Mat2

/-- Image location sensitivity matrices (Table 11-3 of the IPDD). -/
structure ImageLocationSensitivityMatrices where
  M_IL_PT : Matrix (Fin 2) (Fin 3) ℝ
  M_GPXY_IL : Mat2
  M_SPXY_IL : Mat2
  M_IL_SPXY : Mat2
  M_RRdot_IL : Mat2
  M_IL_RRdot : Mat2

/-- The fields shared by the monostatic and bistatic sensitivity matrix
bundles (`SensitivityMatricesLike`). -/
structure SensitivityMatricesBase extends
    SlantPlaneSensitivityMatrices, ImageLocationSensitivityMatrices

/-- Monostatic sensitivity matrices (adds Table 11-4). -/
structure SensitivityMatricesMono extends SensitivityMatricesBase where
  M_RRdot_delta_ARP : Matrix (Fin 2) (Fin 3) ℝ
  M_RRdot_delta_VARP : Matrix (Fin 2) (Fin 3) ℝ

/-- Bistatic sensitivity matrices (adds Table 11-5). -/
structure SensitivityMatricesBi extends SensitivityMatricesBase where
  M_RRdot_delta_Xmt : Matrix (Fin 2) (Fin 3) ℝ
  M_RRdot_delta_VXmt : Matrix (Fin 2) (Fin 3) ℝ
  M_RRdot_delta_Rcv : Matrix (Fin 2) (Fin 3) ℝ
  M_RRdot_delta_VRcv : Matrix (Fin 2) (Fin 3) ℝ

/-- Monostatic COA projection set (the fields consumed here). -/
structure ProjectionSetsMono where
  t_COA : ℝ
  ARP_COA : Fin 3 → ℝ
  VARP_COA : Fin 3 → ℝ
  R_COA : ℝ
  Rdot_COA : ℝ

/-- Bistatic COA projection set (the fields consumed here). -/
structure ProjectionSetsBi where
  t_COA : ℝ
  tx_COA : ℝ
  tr_COA : ℝ
  Xmt_COA : Fin 3 → ℝ
  VXmt_COA : Fin 3 → ℝ
  Rcv_COA : Fin 3 → ℝ
  VRcv_COA : Fin 3 → ℝ
  R_Avg_COA : ℝ
  Rdot_Avg_COA : ℝ

/-- Monostatic component error statistics (fields read by
`compute_composite_error_no_apo_mono`). -/
structure ComponentErrorStatMono where
  AIF : Frame
  C_AIF_APV : Matrix PVIdx PVIdx ℝ
  VAR_RB : ℝ
  VAR_CLK_SF : ℝ
  VAR_TROP : ℝ
  VAR_IONO : ℝ

/-- Bistatic component error statistics (fields read by
`compute_composite_error_no_apo_bi`). -/
structure ComponentErrorStatBi where
  XIF : Frame
  RIF : Frame
  C_XIF_XPV : Matrix PVIdx PVIdx ℝ
  C_RIF_RPV : Matrix PVIdx PVIdx ℝ
  CC_XIF_RIF_XPV_RPV : Matrix PVIdx PVIdx ℝ
  C_XRTF : Matrix (Fin 2 ⊕ Fin 2) (Fin 2 ⊕ Fin 2) ℝ
  C_ATM : Mat2

/-- IPDD error statistics parameters; all component and pre-composited
fields are optional. -/
structure ErrorStatParams where
  component_mono : Option ComponentErrorStatMono
  component_bi : Option ComponentErrorStatBi
  C_SCP_RGAZ : Option Mat2
  C_SCP_RRdot : Option Mat2
  C_UI : Mat2

/-- IPDD APO error parameters; all fields are optional. -/
structure ApoErrorParams where
  C_SCPAPO_RGAZ : Option Mat2
  C_APOM : Option (Matrix ApoMIdx ApoMIdx ℝ)
  C_SCPAPO_RRdot : Option Mat2
  C_APOXR : Option (Matrix ApoXRIdx ApoXRIdx ℝ)

/-! ### Composite error covariance (`_errorprop.py`) -/

/-- Embedding of `compute_composite_error_no_apo_mono`. -/
def compute_composite_error_no_apo_mono (proj_set_0 : ProjectionSetsMono)
    (sens_mat : SensitivityMatricesMono) (errorstat_params : ErrorStatParams) :
    Option Mat2 :=
  match errorstat_params.component_mono, errorstat_params.C_SCP_RGAZ with
  | none, none => none
  | none, some c => some c
  | some comps, _ =>
    let m_rrdot_apv : Matrix (Fin 2) PVIdx ℝ :=
      Matrix.fromColumns sens_mat.M_RRdot_delta_ARP sens_mat.M_RRdot_delta_VARP
    let t_ecef_aif :=
      compute_ecef_pv_transformation proj_set_0.ARP_COA proj_set_0.VARP_COA comps.AIF
    let c_apv_rrdot :=
      m_rrdot_apv * t_ecef_aif * comps.C_AIF_APV * (m_rrdot_apv * t_ecef_aif)ᵀ
    let c_rb_rrdot : Mat2 := !![comps.VAR_RB, 0; 0, 0]
    let crsf := -proj_set_0.R_COA
    let crdotsf := -proj_set_0.Rdot_COA
    let c_clk_sf_rrdot : Mat2 :=
      comps.VAR_CLK_SF • !![crsf ^ 2, crsf * crdotsf; crsf * crdotsf, crdotsf ^ 2]
    let c_trop_rrdot : Mat2 := !![comps.VAR_TROP, 0; 0, 0]
    let c_iono_rrdot : Mat2 := !![comps.VAR_IONO, 0; 0, 0]
    let c_ui_rrdot :=
      sens_mat.M_RRdot_IL * errorstat_params.C_UI * sens_mat.M_RRdot_ILᵀ
    let c_ilpt_rrdot :=
      c_apv_rrdot + c_rb_rrdot + c_clk_sf_rrdot + c_trop_rrdot + c_iono_rrdot +
        c_ui_rrdot
    let m_rgaz_rrdot := -sens_mat.M_SPXY_RRdot
    some (m_rgaz_rrdot * c_ilpt_rrdot * m_rgaz_rrdotᵀ)

/-- Embedding of `compute_composite_error_apo_mono`. -/
def compute_composite_error_apo_mono (sens_mat : SensitivityMatricesMono)
    (apoerrors : ApoErrorParams) : Option Mat2 :=
  match apoerrors.C_APOM, apoerrors.C_SCPAPO_RGAZ with
  | none, some c => some c
  | some c_apom, _ =>
    let m_rrdot_xrt : Mat2 := (speed_of_light / 2) • !![-1, 1; 0, 0]
    let m_rrdot_apom : Matrix (Fin 2) ApoMIdx ℝ :=
      Matrix.fromColumns
        (Matrix.fromColumns sens_mat.M_RRdot_delta_ARP sens_mat.M_RRdot_delta_VARP)
        m_rrdot_xrt
    let c_ilpt_rrdot := m_rrdot_apom * c_apom * m_rrdot_apomᵀ
    let m_rgaz_rrdot := -sens_mat.M_SPXY_RRdot
    some (m_rgaz_rrdot * c_ilpt_rrdot * m_rgaz_rrdotᵀ)
  | none, none => none

/-- Embedding of `_proj_sens_params_bi` (the relevant portions of IPDD 12.2
for bistatic). -/
def proj_sens_params_bi (proj_set_0 : ProjectionSetsBi)
    (sens_mat : SensitivityMatricesBi) (t_scp_coa : ℝ) :
    Mat2 × Matrix (Fin 2) PVIdx ℝ × Matrix (Fin 2) PVIdx ℝ × Mat2 × Mat2 :=
  let m_rgaz_rrdot := -sens_mat.M_SPXY_RRdot
  let m_rrdot_xpv : Matrix (Fin 2) PVIdx ℝ :=
    Matrix.fromColumns sens_mat.M_RRdot_delta_Xmt sens_mat.M_RRdot_delta_VXmt
  let m_rrdot_rpv : Matrix (Fin 2) PVIdx ℝ :=
    Matrix.fromColumns sens_mat.M_RRdot_delta_Rcv sens_mat.M_RRdot_delta_VRcv
  let m_rrdot_xtf : Mat2 :=
    (speed_of_light / 2) • !![-1, proj_set_0.tx_COA - t_scp_coa; 0, 1]
  let m_rrdot_rtf : Mat2 :=
    (speed_of_light / 2) • !![1, -(proj_set_0.tr_COA - t_scp_coa); 0, -1]
  (m_rgaz_rrdot, m_rrdot_xpv, m_rrdot_rpv, m_rrdot_xtf, m_rrdot_rtf)

/-- Embedding of `compute_composite_error_no_apo_bi`. -/
def compute_composite_error_no_apo_bi (proj_set_0 : ProjectionSetsBi)
    (sens_mat : SensitivityMatricesBi) (errorstat_params : ErrorStatParams)
    (t_scp_coa : ℝ) : Option Mat2 :=
  let p := proj_sens_params_bi proj_set_0 sens_mat t_scp_coa
  let m_rgaz_rrdot := p.1
  let m_rrdot_xpv := p.2.1
  let m_rrdot_rpv := p.2.2.1
  let m_rrdot_xtf := p.2.2.2.1
  let m_rrdot_rtf := p.2.2.2.2
  match errorstat_params.component_bi, errorstat_params.C_SCP_RRdot with
  | none, none => none
  | none, some c => some (m_rgaz_rrdot * c * m_rgaz_rrdotᵀ)
  | some comps, _ =>
    let t_ecef_xif :=
      compute_ecef_pv_transformation proj_set_0.Xmt_COA proj_set_0.VXmt_COA comps.XIF
    let t_ecef_rif :=
      compute_ecef_pv_transformation proj_set_0.Rcv_COA proj_set_0.VRcv_COA comps.RIF
    let c_ecef_xpv := t_ecef_xif * comps.C_XIF_XPV * t_ecef_xifᵀ
    let c_ecef_rpv := t_ecef_rif * comps.C_RIF_RPV * t_ecef_rifᵀ
    let cc_ecef_xpv_rpv := t_ecef_xif * comps.CC_XIF_RIF_XPV_RPV * t_ecef_rifᵀ
    let c_ecef_xpv_rpv : Matrix (PVIdx ⊕ PVIdx) (PVIdx ⊕ PVIdx) ℝ :=
      Matrix.fromBlocks c_ecef_xpv cc_ecef_xpv_rpv cc_ecef_xpv_rpvᵀ c_ecef_rpv
    let m_rrdot_xpv_rpv : Matrix (Fin 2) (PVIdx ⊕ PVIdx) ℝ :=
      Matrix.fromColumns m_rrdot_xpv m_rrdot_rpv
    let c_xpv_rpv_rrdot := m_rrdot_xpv_rpv * c_ecef_xpv_rpv * m_rrdot_xpv_rpvᵀ
    let m_rrdot_xrtf : Matrix (Fin 2) (Fin 2 ⊕ Fin 2) ℝ :=
      Matrix.fromColumns m_rrdot_xtf m_rrdot_rtf
    let c_xrtf_rrdot := m_rrdot_xrtf * comps.C_XRTF * m_rrdot_xrtfᵀ
    let m_rrdot_atm : Mat2 := (speed_of_light / 2) • !![1, 1; 0, 0]
    let c_atm_rrdot := m_rrdot_atm * comps.C_ATM * m_rrdot_atmᵀ
    let c_ui_rrdot :=
      sens_mat.M_RRdot_IL * errorstat_params.C_UI * sens_mat.M_RRdot_ILᵀ
    let c_ilpt_rrdot := c_xpv_rpv_rrdot + c_xrtf_rrdot + c_atm_rrdot + c_ui_rrdot
    some (m_rgaz_rrdot * c_ilpt_rrdot * m_rgaz_rrdotᵀ)

/-- Embedding of `compute_composite_error_apo_bi`. -/
def compute_composite_error_apo_bi (proj_set_0 : ProjectionSetsBi)
    (sens_mat : SensitivityMatricesBi) (apoerrors : ApoErrorParams)
    (t_scp_coa : ℝ) : Option Mat2 :=
  let p := proj_sens_params_bi proj_set_0 sens_mat t_scp_coa
  let m_rgaz_rrdot := p.1
  let m_rrdot_xpv := p.2.1
  let m_rrdot_rpv := p.2.2.1
  let m_rrdot_xtf := p.2.2.2.1
  let m_rrdot_rtf := p.2.2.2.2
  match apoerrors.C_APOXR, apoerrors.C_SCPAPO_RRdot with
  | none, some c => some (m_rgaz_rrdot * c * m_rgaz_rrdotᵀ)
  | some c_apoxr, _ =>
    let m_rrdot_apoxr : Matrix (Fin 2) ApoXRIdx ℝ :=
      Matrix.fromColumns m_rrdot_xpv
        (Matrix.fromColumns m_rrdot_xtf (Matrix.fromColumns m_rrdot_rpv m_rrdot_rtf))
    let c_ilpt_rrdot := m_rrdot_apoxr * c_apoxr * m_rrdot_apoxrᵀ
    some (m_rgaz_rrdot * c_ilpt_rrdot * m_rgaz_rrdotᵀ)
  | none, none => none

/-- Embedding of `compute_i2s_error` (IPDD 12.5). -/
def compute_i2s_error (c_ilpt_rgaz c_il_sel : Mat2) (var_hae : ℝ)
    (sens_mats : SensitivityMatricesBase) : Matrix (Fin 3) (Fin 3) ℝ :=
  let mil_spxy_rgaz : Mat2 := -1
  let c_rgaz_gpxy :=
    sens_mats.M_GPXY_SPXY * mil_spxy_rgaz * c_ilpt_rgaz *
      (sens_mats.M_GPXY_SPXY * mil_spxy_rgaz)ᵀ
  let c_rgaz_pt := sens_mats.M_PT_GPXY * c_rgaz_gpxy * sens_mats.M_PT_GPXYᵀ
  let c_il_sel_gpxy := sens_mats.M_GPXY_IL * c_il_sel * sens_mats.M_GPXY_ILᵀ
  let c_il_sel_pt := sens_mats.M_PT_GPXY * c_il_sel_gpxy * sens_mats.M_PT_GPXYᵀ
  let c_hae_pt := var_hae • (sens_mats.MIL_PT_HAE * sens_mats.MIL_PT_HAEᵀ)
  c_rgaz_pt + c_il_sel_pt + c_hae_pt

/-- C1: each composite-error entry point returns None exactly when neither a
component bundle nor the corresponding pre-computed composite covariance is
supplied; otherwise it returns a (typed) 2x2 matrix. -/
theorem composite_error_none_iff_no_errorstats
    (psm : ProjectionSetsMono) (smm : SensitivityMatricesMono)
    (psb : ProjectionSetsBi) (smb : SensitivityMatricesBi)
    (esp : ErrorStatParams) (apo : ApoErrorParams) (t_scp_coa : ℝ) :
    (compute_composite_error_no_apo_mono psm smm esp = none ↔
      esp.component_mono = none ∧ esp.C_SCP_RGAZ = none) ∧
    (compute_composite_error_apo_mono smm apo = none ↔
      apo.C_APOM = none ∧ apo.C_SCPAPO_RGAZ = none) ∧
    (compute_composite_error_no_apo_bi psb smb esp t_scp_coa = none ↔
      esp.component_bi = none ∧ esp.C_SCP_RRdot = none) ∧
    (compute_composite_error_apo_bi psb smb apo t_scp_coa = none ↔
      apo.C_APOXR = none ∧ apo.C_SCPAPO_RRdot = none) := by
  obtain ⟨cm, cb, cs, cr, cui⟩ := esp
  obtain ⟨ag, am, ar, ax⟩ := apo
  refine ⟨?_, ?_, ?_, ?_⟩
  · cases cm <;> cases cs <;>
      simp [compute_composite_error_no_apo_mono]
  · cases am <;> cases ag <;>
      simp [compute_composite_error_apo_mono]
  · cases cb <;> cases cr <;>
      simp [compute_composite_error_no_apo_bi]
  · cases ax <;> cases ar <;>
      simp [compute_composite_error_apo_bi]

/-- C9: when both a component bundle and a pre-computed composite covariance
are supplied, each entry point computes from the components and ignores the
pre-computed matrix. -/
theorem composite_error_components_take_precedence
    (psm : ProjectionSetsMono) (smm : SensitivityMatricesMono)
    (psb : ProjectionSetsBi) (smb : SensitivityMatricesBi) (t_scp_coa : ℝ)
    (cm : ComponentErrorStatMono) (cb : ComponentErrorStatBi)
    (cbo : Option ComponentErrorStatBi) (cmo : Option ComponentErrorStatMono)
    (cro cso : Option Mat2) (cui : Mat2)
    (c cg crd : Mat2) (capom : Matrix ApoMIdx ApoMIdx ℝ)
    (capoxr : Matrix ApoXRIdx ApoXRIdx ℝ) (ago aro : Option Mat2) :
    compute_composite_error_no_apo_mono psm smm ⟨some cm, cbo, some c, cro, cui⟩ =
      compute_composite_error_no_apo_mono psm smm ⟨some cm, cbo, none, cro, cui⟩ ∧
    compute_composite_error_apo_mono smm ⟨some cg, some capom, aro, none⟩ =
      compute_composite_error_apo_mono smm ⟨none, some capom, aro, none⟩ ∧
    compute_composite_error_no_apo_bi psb smb ⟨cmo, some cb, cso, some c, cui⟩
        t_scp_coa =
      compute_composite_error_no_apo_bi psb smb ⟨cmo, some cb, cso, none, cui⟩
        t_scp_coa ∧
    compute_composite_error_apo_bi psb smb ⟨ago, none, some crd, some capoxr⟩
        t_scp_coa =
      compute_composite_error_apo_bi psb smb ⟨ago, none, none, some capoxr⟩
        t_scp_coa :=
  ⟨rfl, rfl, rfl, rfl⟩

/-- Concrete sensitivity-matrix bundle used by the C2 counterexample: the
slant-plane inverse sensitivity matrix is diag(2, 1), so the range-azimuth
sandwich is not the identity map. -/
def sensMatCex : SensitivityMatricesMono where
  M_SPXY_PT := 0
  M_SPXY_GPXY := 0
  M_GPXY_SPXY := 0
  M_PT_GPXY := 0
  MIL_PT_HAE := 0
  M_RRdot_SPXY := 0
  M_SPXY_RRdot := !![2, 0; 0, 1]
  M_IL_PT := 0
  M_GPXY_IL := 0
  M_SPXY_IL := 0
  M_IL_SPXY := 0
  M_RRdot_IL := 0
  M_IL_RRdot := 0
  M_RRdot_delta_ARP := 0
  M_RRdot_delta_VARP := 0

/-- Projection set used by the C2 counterexample (values irrelevant to the
pre-composited branch). -/
def projSetCex : ProjectionSetsMono where
  t_COA := 0
  ARP_COA := 0
  VARP_COA := 0
  R_COA := 0
  Rdot_COA := 0

/-- C2 counterexample: with only C_SCP_RGAZ = I supplied, the monostatic
no-APO entry point returns I unchanged, while the claimed
M_SPXY_RRdot-derived sandwich of I is not I. -/
theorem composite_error_precomposited_mono_counterexample :
    compute_composite_error_no_apo_mono projSetCex sensMatCex
      ⟨none, none, some 1, none, 0⟩ = some 1 ∧
    -sensMatCex.M_SPXY_RRdot * (1 : Mat2) * (-sensMatCex.M_SPXY_RRdot)ᵀ ≠
      (1 : Mat2) := by
  refine ⟨rfl, ?_⟩
  intro h
  have h00 := congrFun (congrFun h 0) 0
  simp only [sensMatCex, Matrix.mul_one, Matrix.mul_apply, Fin.sum_univ_two,
    Matrix.neg_apply, Matrix.transpose_apply, Matrix.cons_val_zero, Matrix.cons_val_one,
    Matrix.head_cons, Matrix.one_apply_eq] at h00
  norm_num at h00

/-- C2 (amended): with a pre-computed composite covariance and no component
bundle, the monostatic entry points return the supplied range-azimuth
covariance unchanged, while the bistatic entry points (whose pre-computed
covariance is in range/range-rate coordinates) transform it through the
slant-plane sensitivity sandwich m_rgaz_rrdot = -M_SPXY_RRdot. -/
theorem composite_error_precomposited_passthrough
    (psm : ProjectionSetsMono) (smm : SensitivityMatricesMono)
    (psb : ProjectionSetsBi) (smb : SensitivityMatricesBi) (t_scp_coa : ℝ)
    (cbo : Option ComponentErrorStatBi) (cmo : Option ComponentErrorStatMono)
    (cro cso ago aro : Option Mat2) (cui c : Mat2) :
    compute_composite_error_no_apo_mono psm smm ⟨none, cbo, some c, cro, cui⟩ =
      some c ∧
    compute_composite_error_apo_mono smm ⟨some c, none, aro, none⟩ = some c ∧
    compute_composite_error_no_apo_bi psb smb ⟨cmo, none, cso, some c, cui⟩
        t_scp_coa =
      some (-smb.M_SPXY_RRdot * c * (-smb.M_SPXY_RRdot)ᵀ) ∧
    compute_composite_error_apo_bi psb smb ⟨ago, none, some c, none⟩ t_scp_coa =
      some (-smb.M_SPXY_RRdot * c * (-smb.M_SPXY_RRdot)ᵀ) :=
  ⟨rfl, rfl, rfl, rfl⟩

/-- C6: compute_i2s_error is the sum of the three transported covariance
components: the slant-plane covariance through M_GPXY_SPXY with the -I sign
flip and then M_PT_GPXY, the image-location covariance through M_GPXY_IL and
then M_PT_GPXY, and the height variance times MIL_PT_HAE * MIL_PT_HAEᵀ. -/
theorem i2s_error_decomposition (c_ilpt_rgaz c_il_sel : Mat2) (var_hae : ℝ)
    (sens_mats : SensitivityMatricesBase) (hvar : 0 ≤ var_hae) :
    compute_i2s_error c_ilpt_rgaz c_il_sel var_hae sens_mats =
      sens_mats.M_PT_GPXY *
          (sens_mats.M_GPXY_SPXY * (-1) * c_ilpt_rgaz *
            (sens_mats.M_GPXY_SPXY * (-1))ᵀ) *
          sens_mats.M_PT_GPXYᵀ +
        sens_mats.M_PT_GPXY *
          (sens_mats.M_GPXY_IL * c_il_sel * sens_mats.M_GPXY_ILᵀ) *
          sens_mats.M_PT_GPXYᵀ +
        var_hae • (sens_mats.MIL_PT_HAE * sens_mats.MIL_PT_HAEᵀ) :=
  rfl

/-- Sensitivity-matrix bundle (shared fields only) used by the C6 witness. -/
def sensBaseW : SensitivityMatricesBase where
  M_SPXY_PT := 0
  M_SPXY_GPXY := 0
  M_GPXY_SPXY := 1
  M_PT_GPXY := 0
  MIL_PT_HAE := 0
  M_RRdot_SPXY := 0
  M_SPXY_RRdot := 1
  M_IL_PT := 0
  M_GPXY_IL := 1
  M_SPXY_IL := 0
  M_IL_SPXY := 0
  M_RRdot_IL := 0
  M_IL_RRdot := 0

/-- C6 witness: the theorem instantiated at identity covariances and unit
height variance. -/
theorem i2s_error_decomposition_witness :
    (0 : ℝ) ≤ 1 ∧
    compute_i2s_error 1 1 1 sensBaseW =
      sensBaseW.M_PT_GPXY *
          (sensBaseW.M_GPXY_SPXY * (-1) * 1 * (sensBaseW.M_GPXY_SPXY * (-1))ᵀ) *
          sensBaseW.M_PT_GPXYᵀ +
        sensBaseW.M_PT_GPXY *
          (sensBaseW.M_GPXY_IL * 1 * sensBaseW.M_GPXY_ILᵀ) *
          sensBaseW.M_PT_GPXYᵀ +
        (1 : ℝ) • (sensBaseW.MIL_PT_HAE * sensBaseW.MIL_PT_HAEᵀ) :=
  ⟨zero_le_one, i2s_error_decomposition 1 1 1 sensBaseW zero_le_one⟩

lemma transpose_two (a b c d : ℝ) : (!![a, b; c, d] : Mat2)ᵀ = !![a, c; b, d] := by
  ext i j
  fin_cases i <;> fin_cases j <;> rfl

lemma sandwich_transpose {m n : Type*} [Fintype n] (A : Matrix m n ℝ)
    (C : Matrix n n ℝ) (h : Cᵀ = C) : (A * C * Aᵀ)ᵀ = A * C * Aᵀ := by
  rw [Matrix.transpose_mul, Matrix.transpose_mul, Matrix.transpose_transpose, h,
    ← Matrix.mul_assoc]

/-- C10: if every supplied covariance input is symmetric, every
composite-error result (when not None) is a symmetric 2x2 matrix. -/
theorem composite_error_symmetric
    (psm : ProjectionSetsMono) (smm : SensitivityMatricesMono)
    (psb : ProjectionSetsBi) (smb : SensitivityMatricesBi)
    (esp : ErrorStatParams) (apo : ApoErrorParams) (t_scp_coa : ℝ)
    (hui : esp.C_UIᵀ = esp.C_UI)
    (hcm : ∀ comps, esp.component_mono = some comps →
      comps.C_AIF_APVᵀ = comps.C_AIF_APV)
    (hcb : ∀ comps, esp.component_bi = some comps →
      comps.C_XIF_XPVᵀ = comps.C_XIF_XPV ∧ comps.C_RIF_RPVᵀ = comps.C_RIF_RPV ∧
      comps.C_XRTFᵀ = comps.C_XRTF ∧ comps.C_ATMᵀ = comps.C_ATM)
    (hsg : ∀ c, esp.C_SCP_RGAZ = some c → cᵀ = c)
    (hsr : ∀ c, esp.C_SCP_RRdot = some c → cᵀ = c)
    (hag : ∀ c, apo.C_SCPAPO_RGAZ = some c → cᵀ = c)
    (har : ∀ c, apo.C_SCPAPO_RRdot = some c → cᵀ = c)
    (ham : ∀ c, apo.C_APOM = some c → cᵀ = c)
    (hax : ∀ c, apo.C_APOXR = some c → cᵀ = c) :
    Option.map Matrix.transpose
        (compute_composite_error_no_apo_mono psm smm esp) =
      compute_composite_error_no_apo_mono psm smm esp ∧
    Option.map Matrix.transpose (compute_composite_error_apo_mono smm apo) =
      compute_composite_error_apo_mono smm apo ∧
    Option.map Matrix.transpose
        (compute_composite_error_no_apo_bi psb smb esp t_scp_coa) =
      compute_composite_error_no_apo_bi psb smb esp t_scp_coa ∧
    Option.map Matrix.transpose
        (compute_composite_error_apo_bi psb smb apo t_scp_coa) =
      compute_composite_error_apo_bi psb smb apo t_scp_coa := by
  obtain ⟨cm, cb2, cs, cr, cui⟩ := esp
  obtain ⟨ag, am, ar, ax⟩ := apo
  simp only at hui hcm hcb hsg hsr hag har ham hax
  refine ⟨?_, ?_, ?_, ?_⟩
  · cases cm with
    | none =>
      cases cs with
      | none => rfl
      | some c =>
        simp only [compute_composite_error_no_apo_mono, Option.map]
        rw [hsg c rfl]
    | some comps =>
      simp only [compute_composite_error_no_apo_mono, Option.map, Option.some.injEq]
      rw [sandwich_transpose]
      simp only [Matrix.transpose_add, Matrix.transpose_mul, Matrix.transpose_transpose,
        Matrix.transpose_smul, transpose_two, hui, hcm comps rfl, Matrix.mul_assoc]
  · cases am with
    | none =>
      cases ag with
      | none => rfl
      | some c =>
        simp only [compute_composite_error_apo_mono, Option.map]
        rw [hag c rfl]
    | some capom =>
      simp only [compute_composite_error_apo_mono, Option.map, Option.some.injEq]
      rw [sandwich_transpose]
      rw [sandwich_transpose _ _ (ham capom rfl)]
  · cases cb2 with
    | none =>
      cases cr with
      | none => rfl
      | some c =>
        simp only [compute_composite_error_no_apo_bi, Option.map, Option.some.injEq]
        exact sandwich_transpose _ _ (hsr c rfl)
    | some comps =>
      obtain ⟨hx, hr, hxrtf, hatm⟩ := hcb comps rfl
      simp only [compute_composite_error_no_apo_bi, Option.map, Option.some.injEq]
      rw [sandwich_transpose]
      simp only [Matrix.transpose_add, Matrix.transpose_mul, Matrix.transpose_transpose,
        Matrix.transpose_smul, Matrix.fromBlocks_transpose, transpose_two,
        hui, hx, hr, hxrtf, hatm, Matrix.mul_assoc]
  · cases ax with
    | none =>
      cases ar with
      | none => rfl
      | some c =>
        simp only [compute_composite_error_apo_bi, Option.map, Option.some.injEq]
        exact sandwich_transpose _ _ (har c rfl)
    | some capoxr =>
      simp only [compute_composite_error_apo_bi, Option.map, Option.some.injEq]
      rw [sandwich_transpose]
      rw [sandwich_transpose _ _ (hax capoxr rfl)]

/-- Monostatic component bundle used by the C10 witness. -/
def compMonoW : ComponentErrorStatMono where
  AIF := Frame.ECF
  C_AIF_APV := 1
  VAR_RB := 1
  VAR_CLK_SF := 1
  VAR_TROP := 1
  VAR_IONO := 1

/-- Bistatic component bundle used by the C10 witness. -/
def compBiW : ComponentErrorStatBi where
  XIF := Frame.ECF
  RIF := Frame.ECF
  C_XIF_XPV := 1
  C_RIF_RPV := 1
  CC_XIF_RIF_XPV_RPV := 1
  C_XRTF := 1
  C_ATM := 1

/-- Error statistics parameters used by the C10 witness. -/
def espW : ErrorStatParams where
  component_mono := some compMonoW
  component_bi := some compBiW
  C_SCP_RGAZ := some 1
  C_SCP_RRdot := some 1
  C_UI := 1

/-- APO error parameters used by the C10 witness. -/
def apoW : ApoErrorParams where
  C_SCPAPO_RGAZ := some 1
  C_APOM := some 1
  C_SCPAPO_RRdot := some 1
  C_APOXR := some 1

/-- Monostatic projection set used by the C10 witness. -/
def projSetMonoW : ProjectionSetsMono where
  t_COA := 0
  ARP_COA := 0
  VARP_COA := 0
  R_COA := 0
  Rdot_COA := 0

/-- Bistatic projection set used by the C10 witness. -/
def projSetBiW : ProjectionSetsBi where
  t_COA := 0
  tx_COA := 0
  tr_COA := 0
  Xmt_COA := 0
  VXmt_COA := 0
  Rcv_COA := 0
  VRcv_COA := 0
  R_Avg_COA := 0
  Rdot_Avg_COA := 0

/-- Monostatic sensitivity bundle used by the C10 witness. -/
def sensMonoW : SensitivityMatricesMono where
  M_SPXY_PT := 0
  M_SPXY_GPXY := 0
  M_GPXY_SPXY := 0
  M_PT_GPXY := 0
  MIL_PT_HAE := 0
  M_RRdot_SPXY := 0
  M_SPXY_RRdot := 1
  M_IL_PT := 0
  M_GPXY_IL := 0
  M_SPXY_IL := 0
  M_IL_SPXY := 0
  M_RRdot_IL := 1
  M_IL_RRdot := 1
  M_RRdot_delta_ARP := 0
  M_RRdot_delta_VARP := 0

/-- Bistatic sensitivity bundle used by the C10 witness. -/
def sensBiW : SensitivityMatricesBi where
  M_SPXY_PT := 0
  M_SPXY_GPXY := 0
  M_GPXY_SPXY := 0
  M_PT_GPXY := 0
  MIL_PT_HAE := 0
  M_RRdot_SPXY := 0
  M_SPXY_RRdot := 1
  M_IL_PT := 0
  M_GPXY_IL := 0
  M_SPXY_IL := 0
  M_IL_SPXY := 0
  M_RRdot_IL := 1
  M_IL_RRdot := 1
  M_RRdot_delta_Xmt := 0
  M_RRdot_delta_VXmt := 0
  M_RRdot_delta_Rcv := 0
  M_RRdot_delta_VRcv := 0

/-- C10 witness: the theorem instantiated at identity covariances. -/
theorem composite_error_symmetric_witness :
    espW.C_UIᵀ = espW.C_UI ∧
    (∀ c, espW.C_SCP_RGAZ = some c → cᵀ = c) ∧
    Option.map Matrix.transpose
        (compute_composite_error_no_apo_mono projSetMonoW sensMonoW espW) =
      compute_composite_error_no_apo_mono projSetMonoW sensMonoW espW ∧
    Option.map Matrix.transpose (compute_composite_error_apo_mono sensMonoW apoW) =
      compute_composite_error_apo_mono sensMonoW apoW ∧
    Option.map Matrix.transpose
        (compute_composite_error_no_apo_bi projSetBiW sensBiW espW 0) =
      compute_composite_error_no_apo_bi projSetBiW sensBiW espW 0 ∧
    Option.map Matrix.transpose
        (compute_composite_error_apo_bi projSetBiW sensBiW apoW 0) =
      compute_composite_error_apo_bi projSetBiW sensBiW apoW 0 := by
  have hone : ∀ c : Mat2, some (1 : Mat2) = some c → cᵀ = c := by
    intro c h
    cases h
    exact Matrix.transpose_one
  have hui : espW.C_UIᵀ = espW.C_UI := Matrix.transpose_one
  have hcm : ∀ comps, espW.component_mono = some comps →
      comps.C_AIF_APVᵀ = comps.C_AIF_APV := by
    intro comps h
    simp only [espW] at h
    cases h
    exact Matrix.transpose_one
  have hcb : ∀ comps, espW.component_bi = some comps →
      comps.C_XIF_XPVᵀ = comps.C_XIF_XPV ∧ comps.C_RIF_RPVᵀ = comps.C_RIF_RPV ∧
      comps.C_XRTFᵀ = comps.C_XRTF ∧ comps.C_ATMᵀ = comps.C_ATM := by
    intro comps h
    simp only [espW] at h
    cases h
    exact ⟨Matrix.transpose_one, Matrix.transpose_one, Matrix.transpose_one,
      Matrix.transpose_one⟩
  have hsg : ∀ c, espW.C_SCP_RGAZ = some c → cᵀ = c := fun c h => hone c h
  have hsr : ∀ c, espW.C_SCP_RRdot = some c → cᵀ = c := fun c h => hone c h
  have hag : ∀ c, apoW.C_SCPAPO_RGAZ = some c → cᵀ = c := fun c h => hone c h
  have har : ∀ c, apoW.C_SCPAPO_RRdot = some c → cᵀ = c := fun c h => hone c h
  have ham : ∀ c, apoW.C_APOM = some c → cᵀ = c := by
    intro c h
    cases h
    exact Matrix.transpose_one
  have hax : ∀ c, apoW.C_APOXR = some c → cᵀ = c := by
    intro c h
    cases h
    exact Matrix.transpose_one
  obtain ⟨w1, w2, w3, w4⟩ := composite_error_symmetric projSetMonoW sensMonoW
    projSetBiW sensBiW espW apoW 0 hui hcm hcb hsg hsr hag har ham hax
  exact ⟨hui, hsg, w1, w2, w3, w4⟩

/-! ### Projection geometry parameters (`_sensitivity.py`) -/

/-- Monostatic projection geometry parameters. -/
structure ProjGeomParamsMono where
  uPT : Fin 3 → ℝ
  uPTDot : Fin 3 → ℝ
  VM_0 : ℝ
  cos_DCA : ℝ
  sin_DCA : ℝ
  tan_DCA : ℝ

/-- Embedding of `compute_proj_geom_params_mono`. -/
def compute_proj_geom_params_mono (proj_set_0 : ProjectionSetsMono)
    (pt0 : Fin 3 → ℝ) : ProjGeomParamsMono :=
  let u_pt := fun i => (proj_set_0.ARP_COA i - pt0 i) / proj_set_0.R_COA
  let u_pt_dot := fun i =>
    (proj_set_0.VARP_COA i - proj_set_0.Rdot_COA * u_pt i) / proj_set_0.R_COA
  let vm0 := norm3 proj_set_0.VARP_COA
  let cos_dca := -proj_set_0.Rdot_COA / vm0
  let sin_dca := Real.sqrt (1 - cos_dca ^ 2)
  let tan_dca := sin_dca / cos_dca
  ⟨u_pt, u_pt_dot, vm0, cos_dca, sin_dca, tan_dca⟩

/-- Bistatic projection geometry parameters. -/
structure ProjGeomParamsBi where
  R_Xmt_0coa : ℝ
  Rdot_Xmt_0coa : ℝ
  R_Rcv_0coa : ℝ
  Rdot_Rcv_0coa : ℝ
  uXmt : Fin 3 → ℝ
  uXmtDot : Fin 3 → ℝ
  uRcv : Fin 3 → ℝ
  uRcvDot : Fin 3 → ℝ
  bP : Fin 3 → ℝ
  bPDot : Fin 3 → ℝ

/-- Embedding of `compute_proj_geom_params_bi`. -/
def compute_proj_geom_params_bi (proj_set_0 : ProjectionSetsBi)
    (pt0 : Fin 3 → ℝ) : ProjGeomParamsBi :=
  let r_xmt_0coa := norm3 (fun i => proj_set_0.Xmt_COA i - pt0 i)
  let u_xmt := fun i => (proj_set_0.Xmt_COA i - pt0 i) / r_xmt_0coa
  let rdot_xmt_0coa := dot3 proj_set_0.VXmt_COA u_xmt
  let u_xmtdot := fun i =>
    (proj_set_0.VXmt_COA i - rdot_xmt_0coa * u_xmt i) / r_xmt_0coa
  let r_rcv_0coa := norm3 (fun i => proj_set_0.Rcv_COA i - pt0 i)
  let u_rcv := fun i => (proj_set_0.Rcv_COA i - pt0 i) / r_rcv_0coa
  let rdot_rcv_0coa := dot3 proj_set_0.VRcv_COA u_rcv
  let u_rcvdot := fun i =>
    (proj_set_0.VRcv_COA i - rdot_rcv_0coa * u_rcv i) / r_rcv_0coa
  let bp := fun i => (u_xmt i + u_rcv i) / 2
  let bpdot := fun i => (u_xmtdot i + u_rcvdot i) / 2
  ⟨r_xmt_0coa, rdot_xmt_0coa, r_rcv_0coa, rdot_rcv_0coa, u_xmt, u_xmtdot,
    u_rcv, u_rcvdot, bp, bpdot⟩

/-- The identification used by the spec equivalence: a bistatic projection
set with Xmt = Rcv = ARP, VXmt = VRcv = VARP, averaged range and range rate
equal to the monostatic ones, and all times equal to the COA time. -/
def bistaticFromMono (ps : ProjectionSetsMono) : ProjectionSetsBi where
  t_COA := ps.t_COA
  tx_COA := ps.t_COA
  tr_COA := ps.t_COA
  Xmt_COA := ps.ARP_COA
  VXmt_COA := ps.VARP_COA
  Rcv_COA := ps.ARP_COA
  VRcv_COA := ps.VARP_COA
  R_Avg_COA := ps.R_COA
  Rdot_Avg_COA := ps.Rdot_COA

/-- Monostatic projection set witnessing the C5 counterexample: its stored
range (1) is inconsistent with the geometric distance (2) to the scene
point at the origin. -/
def projSetC5 : ProjectionSetsMono where
  t_COA := 0
  ARP_COA := ![2, 0, 0]
  VARP_COA := ![0, 1, 0]
  R_COA := 1
  Rdot_COA := 0

lemma sqrt_four : Real.sqrt 4 = 2 := by
  rw [show (4 : ℝ) = 2 ^ 2 by norm_num, Real.sqrt_sq (by norm_num : (0:ℝ) ≤ 2)]

/-- C5 counterexample: bP of the identified bistatic geometry differs from
the monostatic uPT when the stored monostatic range is not the geometric
distance to the scene point: the claim quantified over every monostatic
input fails. -/
theorem proj_geom_params_bi_mono_counterexample :
    (compute_proj_geom_params_bi (bistaticFromMono projSetC5) 0).bP ≠
      (compute_proj_geom_params_mono projSetC5 0).uPT := by
  intro h
  have h0 := congrFun h 0
  have hnorm : norm3 (fun i => projSetC5.ARP_COA i - (0 : Fin 3 → ℝ) i) = 2 := by
    have hd : dot3 (fun i => projSetC5.ARP_COA i - (0 : Fin 3 → ℝ) i)
        (fun i => projSetC5.ARP_COA i - (0 : Fin 3 → ℝ) i) = 4 := by
      simp [dot3, projSetC5]
      norm_num
    rw [norm3, hd, sqrt_four]
  simp only [compute_proj_geom_params_bi, compute_proj_geom_params_mono,
    bistaticFromMono, hnorm] at h0
  simp only [projSetC5, Matrix.cons_val_zero, Pi.zero_apply] at h0
  norm_num at h0

/-- C5 (amended): under the mono-to-bistatic identification, when the
monostatic projection set is consistent with the scene point (its stored
range is the geometric distance and its stored range rate is the projected
velocity), the bistatic geometry parameters bP and bPDot equal the
monostatic uPT and uPTDot. -/
theorem proj_geom_params_bi_matches_mono (ps : ProjectionSetsMono)
    (pt0 : Fin 3 → ℝ)
    (hR : ps.R_COA = norm3 (fun i => ps.ARP_COA i - pt0 i))
    (hRdot : ps.Rdot_COA =
      dot3 ps.VARP_COA (fun i => (ps.ARP_COA i - pt0 i) / ps.R_COA)) :
    (compute_proj_geom_params_bi (bistaticFromMono ps) pt0).bP =
      (compute_proj_geom_params_mono ps pt0).uPT ∧
    (compute_proj_geom_params_bi (bistaticFromMono ps) pt0).bPDot =
      (compute_proj_geom_params_mono ps pt0).uPTDot := by
  have hr : norm3 (fun i => ps.ARP_COA i - pt0 i) = ps.R_COA := hR.symm
  constructor
  · funext i
    simp only [compute_proj_geom_params_bi, compute_proj_geom_params_mono,
      bistaticFromMono, hr]
    ring
  · funext i
    simp only [compute_proj_geom_params_bi, compute_proj_geom_params_mono,
      bistaticFromMono, hr, ← hRdot]
    ring

/-- Monostatic projection set used by the C5 witness: consistent with the
scene point at the origin (range 2, range rate 0). -/
def projSetC5W : ProjectionSetsMono where
  t_COA := 0
  ARP_COA := ![2, 0, 0]
  VARP_COA := ![0, 1, 0]
  R_COA := 2
  Rdot_COA := 0

/-- C5 witness: the amended theorem instantiated at a consistent
monostatic projection set. -/
theorem proj_geom_params_bi_matches_mono_witness :
    projSetC5W.R_COA = norm3 (fun i => projSetC5W.ARP_COA i - (0 : Fin 3 → ℝ) i) ∧
    projSetC5W.Rdot_COA = dot3 projSetC5W.VARP_COA
      (fun i => (projSetC5W.ARP_COA i - (0 : Fin 3 → ℝ) i) / projSetC5W.R_COA) ∧
    (compute_proj_geom_params_bi (bistaticFromMono projSetC5W) 0).bP =
      (compute_proj_geom_params_mono projSetC5W 0).uPT := by
  have hR : projSetC5W.R_COA =
      norm3 (fun i => projSetC5W.ARP_COA i - (0 : Fin 3 → ℝ) i) := by
    have hd : dot3 (fun i => projSetC5W.ARP_COA i - (0 : Fin 3 → ℝ) i)
        (fun i => projSetC5W.ARP_COA i - (0 : Fin 3 → ℝ) i) = 4 := by
      simp [dot3, projSetC5W]
      norm_num
    rw [norm3, hd, sqrt_four]
    rfl
  have hRdot : projSetC5W.Rdot_COA = dot3 projSetC5W.VARP_COA
      (fun i => (projSetC5W.ARP_COA i - (0 : Fin 3 → ℝ) i) / projSetC5W.R_COA) := by
    simp [dot3, projSetC5W]
  exact ⟨hR, hRdot,
    (proj_geom_params_bi_matches_mono projSetC5W 0 hR hRdot).1⟩

/-! ### Support array interpolation (`crsd/_computations.py`)

Scalar embedding of `interpolate_support_array` over the rationals: the
support array is a total function on integer indices (numpy indexing is only
ever performed after clipping into bounds), NaN output is modelled as `none`,
and the data-valid flag is returned alongside.
-/

/-- Embedding of `interpolate_support_array` (CRSD 9.3.2) for one query
point. -/
def interpolate_support_array (x y x_0 y_0 x_ss y_ss : ℚ)
    (numRows numCols : ℤ) (sa : ℤ → ℤ → ℚ)
    (dv_sa : Option (ℤ → ℤ → Bool)) : Option ℚ × Bool :=
  let m_x := (x - x_0) / x_ss
  let m0 := ⌊m_x⌋
  let m1 := m0 + 1
  let row_ok : Bool := decide (0 ≤ m0 ∧ m1 ≤ numRows - 1)
  let m0c := max 0 (min (numRows - 1) m0)
  let m1c := max 0 (min (numRows - 1) m1)
  let n_y := (y - y_0) / y_ss
  let n0 := ⌊n_y⌋
  let n1 := n0 + 1
  let col_ok : Bool := decide (0 ≤ n0 ∧ n1 ≤ numCols - 1)
  let n0c := max 0 (min (numCols - 1) n0)
  let n1c := max 0 (min (numCols - 1) n1)
  let m_frac := m_x - (m0c : ℚ)
  let n_frac := n_y - (n0c : ℚ)
  let value :=
    (1 - m_frac) * ((1 - n_frac) * sa m0c n0c + n_frac * sa m0c n1c) +
      m_frac * ((1 - n_frac) * sa m1c n0c + n_frac * sa m1c n1c)
  let mask_ok : Bool :=
    match dv_sa with
    | none => true
    | some f => f m0c n0c && f m0c n1c && f m1c n0c && f m1c n1c
  let dv := row_ok && col_ok && mask_ok
  (if dv then some value else none, dv)

/-- C7 counterexample: on a 2x2 all-valid support array with unit spacing,
the query at the last grid row (x = 1, a sample point inside the array)
returns (none, false) instead of the stored cell value: the claim as stated
fails for grid-aligned points on the last row or column. -/
theorem interpolate_support_array_counterexample :
    interpolate_support_array 1 0 0 0 1 1 2 2 (fun _ _ => 5) none =
      (none, false) := by
  have hm : ⌊((1 : ℚ) - 0) / 1⌋ = 1 := by norm_num
  have hn : ⌊((0 : ℚ) - 0) / 1⌋ = 0 := by norm_num
  simp only [interpolate_support_array, hm, hn]
  simp +decide

/-- C7 (amended): with an all-true (or absent) validity mask, a query at a
grid sample whose bilinear cell lies inside the array (row index at most
numRows - 2, column index at most numCols - 2) returns exactly the stored
value with dv = true; and any query whose surrounding index pair falls
outside the covered index range returns no value (NaN) with dv = false. -/
theorem interpolate_support_array_grid_aligned
    (x_0 y_0 x_ss y_ss : ℚ) (numRows numCols : ℤ) (sa : ℤ → ℤ → ℚ)
    (dv_sa : Option (ℤ → ℤ → Bool))
    (hmask : dv_sa = none ∨ ∃ f, dv_sa = some f ∧ ∀ i j, f i j = true)
    (hxss : x_ss ≠ 0) (hyss : y_ss ≠ 0) :
    (∀ m n : ℤ, 0 ≤ m → m ≤ numRows - 2 → 0 ≤ n → n ≤ numCols - 2 →
      interpolate_support_array (x_0 + m * x_ss) (y_0 + n * y_ss) x_0 y_0
        x_ss y_ss numRows numCols sa dv_sa = (some (sa m n), true)) ∧
    (∀ x y : ℚ,
      (⌊(x - x_0) / x_ss⌋ < 0 ∨ numRows - 1 < ⌊(x - x_0) / x_ss⌋ + 1 ∨
        ⌊(y - y_0) / y_ss⌋ < 0 ∨ numCols - 1 < ⌊(y - y_0) / y_ss⌋ + 1) →
      interpolate_support_array x y x_0 y_0 x_ss y_ss numRows numCols sa dv_sa =
        (none, false)) := by
  constructor
  · intro m n hm0 hm1 hn0 hn1
    have hmx : (x_0 + (m : ℚ) * x_ss - x_0) / x_ss = (m : ℚ) := by
      field_simp
    have hmy : (y_0 + (n : ℚ) * y_ss - y_0) / y_ss = (n : ℚ) := by
      field_simp
    simp only [interpolate_support_array, hmx, hmy, Int.floor_intCast]
    have e1 : max 0 (min (numRows - 1) m) = m := by omega
    have e2 : max 0 (min (numRows - 1) (m + 1)) = m + 1 := by omega
    have e3 : max 0 (min (numCols - 1) n) = n := by omega
    have e4 : max 0 (min (numCols - 1) (n + 1)) = n + 1 := by omega
    have hrow : decide (0 ≤ m ∧ m + 1 ≤ numRows - 1) = true := by
      rw [decide_eq_true_eq]
      omega
    have hcol : decide (0 ≤ n ∧ n + 1 ≤ numCols - 1) = true := by
      rw [decide_eq_true_eq]
      omega
    rcases hmask with h | ⟨f, hf, hall⟩
    · subst h
      simp only [e1, e2, e3, e4, hrow, hcol]
      simp [sub_self]
    · subst hf
      simp only [e1, e2, e3, e4, hrow, hcol, hall]
      simp [sub_self]
  · intro x y hout
    simp only [interpolate_support_array]
    rcases hout with h | h | h | h
    · have hrow : decide (0 ≤ ⌊(x - x_0) / x_ss⌋ ∧
          ⌊(x - x_0) / x_ss⌋ + 1 ≤ numRows - 1) = false := by
        rw [decide_eq_false_iff_not]
        omega
      rw [hrow]
      simp
    · have hrow : decide (0 ≤ ⌊(x - x_0) / x_ss⌋ ∧
          ⌊(x - x_0) / x_ss⌋ + 1 ≤ numRows - 1) = false := by
        rw [decide_eq_false_iff_not]
        omega
      rw [hrow]
      simp
    · have hcol : decide (0 ≤ ⌊(y - y_0) / y_ss⌋ ∧
          ⌊(y - y_0) / y_ss⌋ + 1 ≤ numCols - 1) = false := by
        rw [decide_eq_false_iff_not]
        omega
      rw [hcol]
      simp
    · have hcol : decide (0 ≤ ⌊(y - y_0) / y_ss⌋ ∧
          ⌊(y - y_0) / y_ss⌋ + 1 ≤ numCols - 1) = false := by
        rw [decide_eq_false_iff_not]
        omega
      rw [hcol]
      simp

/-- Support array used by the C7 witness. -/
def saW : ℤ → ℤ → ℚ := fun i j => (i : ℚ) + 2 * (j : ℚ)

/-- C7 witness: the amended theorem instantiated on a 3x3 array with unit
spacing, at the interior grid sample (1,1) and at a query left of the
array. -/
theorem interpolate_support_array_grid_aligned_witness :
    ((none : Option (ℤ → ℤ → Bool)) = none ∨
      ∃ f, (none : Option (ℤ → ℤ → Bool)) = some f ∧ ∀ i j : ℤ, f i j = true) ∧
    (1 : ℚ) ≠ 0 ∧
    interpolate_support_array (0 + ((1 : ℤ) : ℚ) * 1) (0 + ((1 : ℤ) : ℚ) * 1)
      0 0 1 1 3 3 saW none = (some (saW 1 1), true) ∧
    interpolate_support_array (-1) 0 0 0 1 1 3 3 saW none = (none, false) := by
  have h := interpolate_support_array_grid_aligned 0 0 1 1 3 3 saW none
    (Or.inl rfl) one_ne_zero one_ne_zero
  refine ⟨Or.inl rfl, one_ne_zero, ?_, ?_⟩
  · exact h.1 1 1 (by norm_num) (by norm_num) (by norm_num) (by norm_num)
  · exact h.2 (-1) 0 (Or.inl (by norm_num))

/-! ### Sensitivity matrix construction shapes (`_sensitivity.py`)

The numpy code builds the sensitivity matrices as untyped arrays and asserts
their shapes in `__post_init__`.  We embed the matrix-construction tail of
the compute functions as lists of rows over the reals, parametrized by the
projection geometry parameters (the preceding `scene_to_image` /
`compute_projection_sets` pipeline lives in `_calc.py`, which only produces
those parameters), and prove the asserted shapes hold for every input.
-/

/-- The entries of a length-3 numpy vector as a list. -/
def vec3ToList (v : Fin 3 → ℝ) : List ℝ := [v 0, v 1, v 2]

/-- Shape of a list-of-rows matrix: r rows, each of length c. -/
def listShape (m : List (List ℝ)) (r c : ℕ) : Prop :=
  m.map List.length = List.replicate r c

/-- Raw (untyped) slant plane sensitivity matrices as built by
`compute_slant_plane_sensitivity_matrices`. -/
structure SlantPlaneSensitivityMatricesRaw where
  M_SPXY_PT : List (List ℝ)
  M_SPXY_GPXY : List (List ℝ)
  M_GPXY_SPXY : List (List ℝ)
  M_PT_GPXY : List (List ℝ)
  MIL_PT_HAE : List (List ℝ)
  M_RRdot_SPXY : List (List ℝ)
  M_SPXY_RRdot : List (List ℝ)

/-- Matrix-construction tail of `compute_slant_plane_sensitivity_matrices`
(steps (1)-(8) after the projection geometry parameters p = uPT or bP and
pdot = uPTDot or bPDot are known).  The 2x2 inverse of step (8) is written
with the explicit adjugate formula. -/
def compute_slant_plane_sensitivity_matrices (look : ℝ)
    (p pdot u_gpn0 u_up0 : Fin 3 → ℝ) : SlantPlaneSensitivityMatricesRaw :=
  let spz := look • cross3 p pdot
  let u_spx := (norm3 p)⁻¹ • p
  let u_spz := (norm3 spz)⁻¹ • spz
  let u_spy := cross3 u_spz u_spx
  let u_gpz := u_gpn0
  let gpy := cross3 u_gpz u_spx
  let u_gpy := (norm3 gpy)⁻¹ • gpy
  let u_gpx := cross3 u_gpy u_gpz
  let cos_graz := dot3 u_spx u_gpx
  let sin_graz := dot3 u_spx u_gpz
  let cos_twst := dot3 u_spy u_gpy
  let sin_twst := -dot3 u_spz u_gpy
  let tan_graz := sin_graz / cos_graz
  let tan_twst := sin_twst / cos_twst
  let m_spxy_pt := [vec3ToList u_spx, vec3ToList u_spy]
  let m_spxy_gpxy := [[cos_graz, 0], [-sin_graz * sin_twst, cos_twst]]
  let m_gpxy_spxy := [[1 / cos_graz, 0], [tan_graz * tan_twst, 1 / cos_twst]]
  let m_pt_gpxy := [[u_gpx 0, u_gpy 0], [u_gpx 1, u_gpy 1], [u_gpx 2, u_gpy 2]]
  let spz_sf := dot3 u_up0 u_gpz / dot3 u_spz u_gpz
  let mil_pt_hae := [[spz_sf * u_spz 0], [spz_sf * u_spz 1], [spz_sf * u_spz 2]]
  let a := -dot3 p u_spx
  let b := (0 : ℝ)
  let c := -dot3 pdot u_spx
  let d := -dot3 pdot u_spy
  let m_rrdot_spxy := [[a, b], [c, d]]
  let det := a * d - b * c
  let m_spxy_rrdot := [[d / det, -b / det], [-c / det, a / det]]
  ⟨m_spxy_pt, m_spxy_gpxy, m_gpxy_spxy, m_pt_gpxy, mil_pt_hae, m_rrdot_spxy,
    m_spxy_rrdot⟩

/-- Raw monostatic position/velocity sensitivity matrices. -/
structure PosVelSensitivityMatricesMonoRaw where
  M_RRdot_delta_ARP : List (List ℝ)
  M_RRdot_delta_VARP : List (List ℝ)

/-- Matrix-construction tail of `compute_pos_vel_sensitity_matrices_mono`
(after the geometry parameters and the COA time offset are known). -/
def compute_pos_vel_sensitity_matrices_mono (u_pt u_pt_dot : Fin 3 → ℝ)
    (delta_t_il0_coa : ℝ) : PosVelSensitivityMatricesMonoRaw :=
  let m_rrdot_delta_arp :=
    [vec3ToList (-u_pt), vec3ToList (-u_pt_dot)]
  let m_rrdot_delta_varp :=
    [vec3ToList (-(delta_t_il0_coa • u_pt)),
      vec3ToList (-(u_pt + delta_t_il0_coa • u_pt_dot))]
  ⟨m_rrdot_delta_arp, m_rrdot_delta_varp⟩

/-- Raw bistatic position/velocity sensitivity matrices. -/
structure PosVelSensitivityMatricesBiRaw where
  M_RRdot_delta_Xmt : List (List ℝ)
  M_RRdot_delta_VXmt : List (List ℝ)
  M_RRdot_delta_Rcv : List (List ℝ)
  M_RRdot_delta_VRcv : List (List ℝ)

/-- Matrix-construction tail of `compute_pos_vel_sensitity_matrices_bi`. -/
def compute_pos_vel_sensitity_matrices_bi
    (u_xmt u_xmtdot u_rcv u_rcvdot : Fin 3 → ℝ)
    (delta_tx_il0_coa delta_tr_il0_coa : ℝ) : PosVelSensitivityMatricesBiRaw :=
  let m_rrdot_delta_xmt :=
    [vec3ToList (-(0.5 : ℝ) • u_xmt), vec3ToList (-(0.5 : ℝ) • u_xmtdot)]
  let m_rrdot_delta_vxmt :=
    [vec3ToList (-(0.5 : ℝ) • (delta_tx_il0_coa • u_xmt)),
      vec3ToList (-(0.5 : ℝ) • (u_xmt + delta_tx_il0_coa • u_xmtdot))]
  let m_rrdot_delta_rcv :=
    [vec3ToList (-(0.5 : ℝ) • u_rcv), vec3ToList (-(0.5 : ℝ) • u_rcvdot)]
  let m_rrdot_delta_vrcv :=
    [vec3ToList (-(0.5 : ℝ) • (delta_tr_il0_coa • u_rcv)),
      vec3ToList (-(0.5 : ℝ) • (u_rcv + delta_tr_il0_coa • u_rcvdot))]
  ⟨m_rrdot_delta_xmt, m_rrdot_delta_vxmt, m_rrdot_delta_rcv, m_rrdot_delta_vrcv⟩

/-- C8: the constructed sensitivity matrices always satisfy the shape
assertions of the dataclass constructors: M_SPXY_PT is exactly 2x3, the
slant-plane 2x2 matrices are 2x2, M_PT_GPXY is 3x2, MIL_PT_HAE is 3x1, and
every position/velocity delta matrix is 2x3, for every geometry input. -/
theorem sensitivity_matrix_shapes (look : ℝ)
    (p pdot u_gpn0 u_up0 u_pt u_pt_dot u_xmt u_xmtdot u_rcv u_rcvdot :
      Fin 3 → ℝ)
    (dt dtx dtr : ℝ) :
    listShape (compute_slant_plane_sensitivity_matrices look p pdot u_gpn0
      u_up0).M_SPXY_PT 2 3 ∧
    listShape (compute_slant_plane_sensitivity_matrices look p pdot u_gpn0
      u_up0).M_SPXY_GPXY 2 2 ∧
    listShape (compute_slant_plane_sensitivity_matrices look p pdot u_gpn0
      u_up0).M_GPXY_SPXY 2 2 ∧
    listShape (compute_slant_plane_sensitivity_matrices look p pdot u_gpn0
      u_up0).M_PT_GPXY 3 2 ∧
    listShape (compute_slant_plane_sensitivity_matrices look p pdot u_gpn0
      u_up0).MIL_PT_HAE 3 1 ∧
    listShape (compute_slant_plane_sensitivity_matrices look p pdot u_gpn0
      u_up0).M_RRdot_SPXY 2 2 ∧
    listShape (compute_slant_plane_sensitivity_matrices look p pdot u_gpn0
      u_up0).M_SPXY_RRdot 2 2 ∧
    listShape (compute_pos_vel_sensitity_matrices_mono u_pt u_pt_dot
      dt).M_RRdot_delta_ARP 2 3 ∧
    listShape (compute_pos_vel_sensitity_matrices_mono u_pt u_pt_dot
      dt).M_RRdot_delta_VARP 2 3 ∧
    listShape (compute_pos_vel_sensitity_matrices_bi u_xmt u_xmtdot u_rcv
      u_rcvdot dtx dtr).M_RRdot_delta_Xmt 2 3 ∧
    listShape (compute_pos_vel_sensitity_matrices_bi u_xmt u_xmtdot u_rcv
      u_rcvdot dtx dtr).M_RRdot_delta_VXmt 2 3 ∧
    listShape (compute_pos_vel_sensitity_matrices_bi u_xmt u_xmtdot u_rcv
      u_rcvdot dtx dtr).M_RRdot_delta_Rcv 2 3 ∧
    listShape (compute_pos_vel_sensitity_matrices_bi u_xmt u_xmtdot u_rcv
      u_rcvdot dtx dtr).M_RRdot_delta_VRcv 2 3 :=
  ⟨rfl, rfl, rfl, rfl, rfl, rfl, rfl, rfl, rfl, rfl, rfl, rfl, rfl⟩
